import Mathlib

/- Shallow embedding of the HandTrackerHUD gesture / region-manipulation
logic (src/handtracker.py and src/hand_tracker_components/) and proofs of
the specified properties.

Coordinates in the component layer (quad_manager.py) are modelled as ℚ;
pixel coordinates computed by handtracker.py with int() casts and //
division are modelled as ℤ.  Times (time.time()) and angles (degrees from
math.atan2) are modelled as ℚ parameters.  Comparisons of the form
math.hypot(dx, dy) < t are modelled by the equivalent squared comparison
dx*dx + dy*dy < t*t (equivalent because every threshold the program uses is
positive). -/

/-- Points in frame-pixel space with rational coordinates
(quad_manager.py / gesture_recognition.py layer). -/
abbrev QPoint := ℚ × ℚ

/-- Integer pixel points, as produced by the int() casts in handtracker.py. -/
abbrev IPoint := ℤ × ℤ

namespace GestureRecognizer

/-- is_near_corner (gesture_recognition.py, lines 25-29): true iff the
Euclidean distance from point to corner is below the threshold.  The source
compares math.hypot(x2-x1, y2-y1) < threshold; for the positive thresholds
used (50 and 150) this equals the squared comparison used here. -/
def is_near_corner (point corner : QPoint) (threshold : ℚ) : Bool :=
  decide ((corner.1 - point.1) * (corner.1 - point.1) +
    (corner.2 - point.2) * (corner.2 - point.2) < threshold * threshold)

end GestureRecognizer

namespace CloseGestureDetector

/-- The per-hand transient tracking state of CloseGestureDetector
(gesture_recognition.py, lines 64-68): gesture_start_pos,
gesture_start_time, gesture_start_angle, all initially None. -/
structure State where
  gesture_start_pos : Option QPoint
  gesture_start_time : Option ℚ
  gesture_start_angle : Option ℚ
deriving DecidableEq

/-- Lines 106-109 of gesture_recognition.py: the rotation delta between the
current and start wrist angles, with wraparound handling — if the raw
absolute difference exceeds 180°, it is replaced by 360° minus that
difference. -/
def angle_delta (current_angle start_angle : ℚ) : ℚ :=
  let d := |current_angle - start_angle|
  if d > 180 then 360 - d else d

/-- check_close_gesture (gesture_recognition.py, lines 70-118).  The index
fingertip position (current_pos, the int()-scaled landmark, embedded in ℚ)
and the wrist angle (current_angle, from math.atan2) are taken as
parameters; now stands for time.time().  Returns the boolean result
together with the updated tracker state. -/
def check_close_gesture (rotation_threshold : ℚ) (st : State)
    (quad_points : List QPoint) (current_pos : QPoint) (current_angle : ℚ)
    (now : ℚ) : Bool × State :=
  if quad_points.length ≠ 4 then (false, st)
  else
    match quad_points[1]? with
    | none => (false, st)
    | some top_right_corner =>
      if GestureRecognizer.is_near_corner current_pos top_right_corner 150 = false then
        (false, ⟨none, none, none⟩)
      else
        match st.gesture_start_angle with
        | none => (false, ⟨some current_pos, some now, some current_angle⟩)
        | some start_angle =>
          if angle_delta current_angle start_angle ≥ rotation_threshold then
            (true, ⟨none, none, none⟩)
          else
            (false, st)

end CloseGestureDetector

/-- C1: with a start angle latched and the fingertip still in the
activation zone, the close decision is exactly angle_delta ≥ 17 (the
default threshold); the wraparound delta from a start of 170° to a current
angle of -170° is 20° and closes the region, while a wraparound delta of
10° (start 175°, current -175°) does not. -/
theorem C1_close_gesture_wraparound
    (st : CloseGestureDetector.State) (quad : List QPoint)
    (pos tr : QPoint) (s a now : ℚ)
    (h4 : quad.length = 4) (htr : quad[1]? = some tr)
    (hz : GestureRecognizer.is_near_corner pos tr 150 = true)
    (hs : st.gesture_start_angle = some s) :
    ((CloseGestureDetector.check_close_gesture 17 st quad pos a now).1 = true ↔
      CloseGestureDetector.angle_delta a s ≥ 17)
    ∧ (s = 170 → a = -170 →
        CloseGestureDetector.angle_delta a s = 20 ∧
        (CloseGestureDetector.check_close_gesture 17 st quad pos a now).1 = true)
    ∧ (s = 175 → a = -175 →
        CloseGestureDetector.angle_delta a s = 10 ∧
        (CloseGestureDetector.check_close_gesture 17 st quad pos a now).1 = false) := by
  have hiff : (CloseGestureDetector.check_close_gesture 17 st quad pos a now).1 = true ↔
      CloseGestureDetector.angle_delta a s ≥ 17 := by
    simp only [CloseGestureDetector.check_close_gesture, h4, htr, hz]
    by_cases hd : CloseGestureDetector.angle_delta a s ≥ 17 <;>
      simp [hd, hs]
  refine ⟨hiff, ?_, ?_⟩
  · rintro rfl rfl
    have h20 : CloseGestureDetector.angle_delta (-170) 170 = 20 := by
      norm_num [CloseGestureDetector.angle_delta, abs_of_nonpos]
    exact ⟨h20, hiff.mpr (by rw [h20]; norm_num)⟩
  · rintro rfl rfl
    have h10 : CloseGestureDetector.angle_delta (-175) 175 = 10 := by
      norm_num [CloseGestureDetector.angle_delta, abs_of_nonpos]
    refine ⟨h10, ?_⟩
    by_contra hc
    simp only [Bool.not_eq_false] at hc
    have := hiff.mp hc
    rw [h10] at this
    norm_num at this

/-- Witness for C1 at concrete inputs: the tracker latched at 170°, the
current angle is -170°, and the fingertip sits on the top-right corner. -/
theorem C1_close_gesture_wraparound_witness :
    ((([(0, 0), (1, 1), (2, 2), (3, 3)] : List QPoint).length = 4) ∧
      (([(0, 0), (1, 1), (2, 2), (3, 3)] : List QPoint)[1]? = some (1, 1)) ∧
      GestureRecognizer.is_near_corner (1, 1) (1, 1) 150 = true) ∧
    (CloseGestureDetector.check_close_gesture 17
      (⟨none, none, some 170⟩ : CloseGestureDetector.State)
      [(0, 0), (1, 1), (2, 2), (3, 3)] (1, 1) (-170) 0).1 = true := by
  refine ⟨⟨by decide, by decide, by norm_num [GestureRecognizer.is_near_corner]⟩, ?_⟩
  exact ((C1_close_gesture_wraparound
    (⟨none, none, some 170⟩ : CloseGestureDetector.State)
    [(0, 0), (1, 1), (2, 2), (3, 3)] (1, 1) (1, 1) 170 (-170) 0
    (by decide) (by decide)
    (by norm_num [GestureRecognizer.is_near_corner]) rfl).2.1 rfl rfl).2

namespace QuadManager

/-- are_opposite_corners (quad_manager.py, lines 41-45): corners are indexed
0=top-left, 1=top-right, 2=bottom-right, 3=bottom-left; the pair is opposite
iff it is (0,2) or (1,3) in either order. -/
def are_opposite_corners (corner1 corner2 : Nat) : Bool :=
  decide ((corner1, corner2) = (0, 2) ∨ (corner1, corner2) = (1, 3) ∨
    (corner2, corner1) = (0, 2) ∨ (corner2, corner1) = (1, 3))

/-- update_quad_resize (quad_manager.py, lines 47-75).  The guard mirrors
`if not self.quad_points or len(self.quad_points) != 4 or
len(corner_positions) != 2: return` (an empty list is subsumed by the
length test).  Python list assignment at the in-range indices 0-3 is
modelled by List.set. -/
def update_quad_resize (quad_points : List QPoint)
    (corner_positions : List (Nat × QPoint)) : List QPoint :=
  if quad_points.length ≠ 4 ∨ corner_positions.length ≠ 2 then quad_points
  else
    match corner_positions with
    | [(corner1_idx, corner1_pos), (corner2_idx, corner2_pos)] =>
      let new_quad := (quad_points.set corner1_idx corner1_pos).set corner2_idx corner2_pos
      if are_opposite_corners corner1_idx corner2_idx then
        if corner1_idx = 0 ∧ corner2_idx = 2 then
          (new_quad.set 1 (corner2_pos.1, corner1_pos.2)).set 3 (corner1_pos.1, corner2_pos.2)
        else if corner1_idx = 1 ∧ corner2_idx = 3 then
          (new_quad.set 0 (corner2_pos.1, corner1_pos.2)).set 2 (corner1_pos.1, corner2_pos.2)
        else if corner1_idx = 2 ∧ corner2_idx = 0 then
          (new_quad.set 1 (corner1_pos.1, corner2_pos.2)).set 3 (corner2_pos.1, corner1_pos.2)
        else if corner1_idx = 3 ∧ corner2_idx = 1 then
          (new_quad.set 0 (corner1_pos.1, corner2_pos.2)).set 2 (corner2_pos.1, corner1_pos.2)
        else new_quad
      else new_quad
    | _ => quad_points

/-- The QuadManager state fields touched or readable around a resize
attempt (quad_manager.py, lines 16-31): the active quad and the
drag/resize session flags. -/
structure MState where
  quad_points : List QPoint
  resizing_window : Bool
  resize_corners : List Nat
  dragging_window : Bool
deriving DecidableEq

/-- The update_quad_resize method acting on the manager state: the source
method writes only self.quad_points (quad_manager.py, line 75) and never
touches the session flags. -/
def update_quad_resize_method (m : MState)
    (corner_positions : List (Nat × QPoint)) : MState :=
  { m with quad_points := update_quad_resize m.quad_points corner_positions }

/-- update_quad_position (quad_manager.py, lines 77-92): move the corner at
corner_index to new_corner_pos and translate the whole quad by the same
delta.  Python indexing quad_points[corner_index] raises out of range; that
case (never reached at call sites) is modelled as a no-op via [i]?. -/
def update_quad_position (quad_points : List QPoint) (new_corner_pos : QPoint)
    (corner_index : Nat) : List QPoint :=
  if quad_points.length ≠ 4 then quad_points
  else
    match quad_points[corner_index]? with
    | none => quad_points
    | some old_corner =>
      let dx := new_corner_pos.1 - old_corner.1
      let dy := new_corner_pos.2 - old_corner.2
      quad_points.map (fun corner => (corner.1 + dx, corner.2 + dy))

/-- Spec-side predicate ("axis-aligned rectangle" in the {top-left,
top-right, bottom-right, bottom-left} ordering): top and bottom edges are
horizontal and left and right edges vertical. -/
def is_axis_aligned_rect : List QPoint → Bool
  | [q0, q1, q2, q3] => decide (q0.2 = q1.2 ∧ q2.2 = q3.2 ∧ q0.1 = q3.1 ∧ q1.1 = q2.1)
  | _ => false

/-- Spec-side predicate for the claimed resize invariant: axis-aligned
rectangle with non-negative width (q1.x - q0.x) and height (q3.y - q0.y). -/
def rect_nonneg : List QPoint → Bool
  | [q0, q1, q2, q3] => decide (q0.2 = q1.2 ∧ q2.2 = q3.2 ∧ q0.1 = q3.1 ∧
      q1.1 = q2.1 ∧ q0.1 ≤ q1.1 ∧ q0.2 ≤ q3.2)
  | _ => false

/-- Width of a quad in the corner ordering of the data model. -/
def quad_width : List QPoint → ℚ
  | q0 :: q1 :: _ => q1.1 - q0.1
  | _ => 0

/-- Height of a quad in the corner ordering of the data model. -/
def quad_height : List QPoint → ℚ
  | q0 :: _ :: _ :: q3 :: _ => q3.2 - q0.2
  | _ => 0

end QuadManager

/-- C3 counterexample: resizing the unit-ordered quad by moving top-left to
(20,20) and bottom-right to (0,0) (crossed diagonal positions) yields a
quad whose width q1.x - q0.x is negative, so the claimed non-negativity
fails: update_quad_resize performs no min/max normalisation. -/
theorem C3_resize_nonneg_counterexample :
    QuadManager.update_quad_resize [(0, 0), (10, 0), (10, 10), (0, 10)]
        [(0, ((20 : ℚ), 20)), (2, (0, 0))] =
      [((20 : ℚ), 20), (0, 20), (0, 0), (20, 0)] ∧
    QuadManager.rect_nonneg (QuadManager.update_quad_resize
        [(0, 0), (10, 0), (10, 10), (0, 10)]
        [(0, ((20 : ℚ), 20)), (2, (0, 0))]) = false := by
  constructor <;>
    norm_num [QuadManager.update_quad_resize, QuadManager.are_opposite_corners,
      QuadManager.rect_nonneg, List.set]

/-- C3 (amended): for every 4-point quad and every pair of new positions on
diagonally opposite corner indices, update_quad_resize yields four points
forming an axis-aligned rectangle (the two bound corners take the given
positions and each unbound corner inherits one coordinate from each bound
corner); the width and height, however, may be negative when the given
positions cross. -/
theorem C3_resize_axis_aligned (quad : List QPoint) (i1 i2 : Nat) (p1 p2 : QPoint)
    (h4 : quad.length = 4)
    (hop : QuadManager.are_opposite_corners i1 i2 = true) :
    QuadManager.is_axis_aligned_rect
        (QuadManager.update_quad_resize quad [(i1, p1), (i2, p2)]) = true ∧
    (QuadManager.update_quad_resize quad [(i1, p1), (i2, p2)])[i1]? = some p1 ∧
    (QuadManager.update_quad_resize quad [(i1, p1), (i2, p2)])[i2]? = some p2 := by
  simp only [QuadManager.are_opposite_corners, decide_eq_true_eq,
    Prod.mk.injEq] at hop
  rcases quad with _ | ⟨a, _ | ⟨b, _ | ⟨c, _ | ⟨d, _ | ⟨e, t⟩⟩⟩⟩⟩ <;> simp at h4
  rcases hop with ⟨rfl, rfl⟩ | ⟨rfl, rfl⟩ | ⟨rfl, rfl⟩ | ⟨rfl, rfl⟩ <;>
    simp [QuadManager.update_quad_resize, QuadManager.are_opposite_corners,
      QuadManager.is_axis_aligned_rect, List.set]

/-- Witness for C3 (amended) at the counterexample's inputs. -/
theorem C3_resize_axis_aligned_witness :
    (([((0 : ℚ), 0), (10, 0), (10, 10), (0, 10)] : List QPoint).length = 4 ∧
      QuadManager.are_opposite_corners 0 2 = true) ∧
    QuadManager.is_axis_aligned_rect (QuadManager.update_quad_resize
        [((0 : ℚ), 0), (10, 0), (10, 10), (0, 10)]
        [(0, ((20 : ℚ), 20)), (2, (0, 0))]) = true :=
  ⟨⟨by decide, by decide⟩,
    (C3_resize_axis_aligned [((0 : ℚ), 0), (10, 0), (10, 10), (0, 10)]
      0 2 ((20 : ℚ), 20) ((0 : ℚ), 0) (by decide) (by decide)).1⟩

/-- C4 counterexample: attempting a resize with the same-side (top) corner
pair (0,1) still changes quad_points — the two named corners are assigned
their new positions before the opposite-corners check, and the method then
stores the modified list. -/
theorem C4_same_side_counterexample :
    (QuadManager.update_quad_resize_method
        ⟨[(0, 0), (10, 0), (10, 10), (0, 10)], false, [], false⟩
        [(0, ((5 : ℚ), 5)), (1, (6, 6))]).quad_points ≠
      [((0 : ℚ), 0), (10, 0), (10, 10), (0, 10)] := by
  norm_num [QuadManager.update_quad_resize_method, QuadManager.update_quad_resize,
    QuadManager.are_opposite_corners, List.set]

/-- C4 (amended): for every same-side (non-diagonal) pair of corner
indices, the resize attempt does not touch any session state — the
resizing/dragging flags and the resize corner list are unchanged — and does
not recompute the unbound corners; however the two named corners themselves
are moved to the given positions. -/
theorem C4_same_side_no_session (m : QuadManager.MState) (i1 i2 : Nat)
    (p1 p2 : QPoint) (h4 : m.quad_points.length = 4)
    (hop : QuadManager.are_opposite_corners i1 i2 = false) :
    (QuadManager.update_quad_resize_method m [(i1, p1), (i2, p2)]).resizing_window =
        m.resizing_window ∧
    (QuadManager.update_quad_resize_method m [(i1, p1), (i2, p2)]).resize_corners =
        m.resize_corners ∧
    (QuadManager.update_quad_resize_method m [(i1, p1), (i2, p2)]).dragging_window =
        m.dragging_window ∧
    (QuadManager.update_quad_resize_method m [(i1, p1), (i2, p2)]).quad_points =
        (m.quad_points.set i1 p1).set i2 p2 := by
  refine ⟨rfl, rfl, rfl, ?_⟩
  simp [QuadManager.update_quad_resize_method, QuadManager.update_quad_resize, h4, hop]

/-- Witness for C4 (amended) at the counterexample's inputs. -/
theorem C4_same_side_no_session_witness :
    ((([(0, 0), (10, 0), (10, 10), (0, 10)] : List QPoint).length = 4) ∧
      QuadManager.are_opposite_corners 0 1 = false) ∧
    (QuadManager.update_quad_resize_method
        ⟨[(0, 0), (10, 0), (10, 10), (0, 10)], false, [], false⟩
        [(0, ((5 : ℚ), 5)), (1, (6, 6))]).resizing_window = false :=
  ⟨⟨by decide, by decide⟩,
    (C4_same_side_no_session ⟨[(0, 0), (10, 0), (10, 10), (0, 10)], false, [], false⟩
      0 1 ((5 : ℚ), 5) ((6 : ℚ), 6) (by decide) (by decide)).1⟩

/-- C6: update_quad_position translates all four corners by the same delta
(new position minus the dragged corner's old position), so quad width and
height are unchanged — dragging moves the rectangle rigidly. -/
theorem C6_drag_rigid_translation (a b c d p old : QPoint) (ci : Nat)
    (hold : ([a, b, c, d] : List QPoint)[ci]? = some old) :
    QuadManager.update_quad_position [a, b, c, d] p ci =
      [(a.1 + (p.1 - old.1), a.2 + (p.2 - old.2)),
       (b.1 + (p.1 - old.1), b.2 + (p.2 - old.2)),
       (c.1 + (p.1 - old.1), c.2 + (p.2 - old.2)),
       (d.1 + (p.1 - old.1), d.2 + (p.2 - old.2))] ∧
    QuadManager.quad_width (QuadManager.update_quad_position [a, b, c, d] p ci) =
      QuadManager.quad_width [a, b, c, d] ∧
    QuadManager.quad_height (QuadManager.update_quad_position [a, b, c, d] p ci) =
      QuadManager.quad_height [a, b, c, d] := by
  refine ⟨?_, ?_, ?_⟩ <;>
    simp [QuadManager.update_quad_position, hold, QuadManager.quad_width,
      QuadManager.quad_height]

/-- Witness for C6: dragging corner 0 of a 10x10 quad to (3,4) preserves
its width. -/
theorem C6_drag_rigid_translation_witness :
    (([((0 : ℚ), 0), (10, 0), (10, 10), (0, 10)] : List QPoint)[0]? = some (0, 0)) ∧
    QuadManager.quad_width (QuadManager.update_quad_position
        [((0 : ℚ), 0), (10, 0), (10, 10), (0, 10)] (3, 4) 0) =
      QuadManager.quad_width [((0 : ℚ), 0), (10, 0), (10, 10), (0, 10)] :=
  ⟨by decide,
    (C6_drag_rigid_translation ((0 : ℚ), 0) ((10 : ℚ), 0) ((10 : ℚ), 10)
      ((0 : ℚ), 10) ((3 : ℚ), 4) ((0 : ℚ), 0) 0 (by decide)).2.1⟩

namespace HandTracker

/-- Squared Euclidean distance between integer pixel points. -/
def sq_dist (p q : IPoint) : ℤ :=
  (q.1 - p.1) * (q.1 - p.1) + (q.2 - p.2) * (q.2 - p.2)

/-- is_pinched (handtracker.py, lines 167-170), default threshold 100 px;
math.hypot < threshold is modelled by the squared comparison (equivalent
for the positive thresholds used). -/
def is_pinched (thumb_tip index_tip : IPoint) (threshold : ℤ) : Bool :=
  decide (sq_dist thumb_tip index_tip < threshold * threshold)

/-- is_near_corner (handtracker.py, lines 83-87), default threshold 50 px,
same squared-comparison modelling. -/
def is_near_corner (point corner : IPoint) (threshold : ℤ) : Bool :=
  decide (sq_dist point corner < threshold * threshold)

/-- get_rectangle_from_points (handtracker.py, lines 172-177): the
axis-aligned bounding rectangle of the points, ordered [top-left,
top-right, bottom-right, bottom-left].  Python's min()/max() need a
nonempty list; the call site always passes exactly 4 points, and the empty
case is mapped to the empty list. -/
def get_rectangle_from_points : List IPoint → List IPoint
  | [] => []
  | p :: ps =>
    let left := ps.foldl (fun m q => min m q.1) p.1
    let right := ps.foldl (fun m q => max m q.1) p.1
    let top := ps.foldl (fun m q => min m q.2) p.2
    let bottom := ps.foldl (fun m q => max m q.2) p.2
    [(left, top), (right, top), (right, bottom), (left, bottom)]

/-- Name of the auto-requested app in the fallback branch of process_frame
(handtracker.py, line 330). -/
def spotify_app : String := "Spotify"

/-- The HandTracker state read and written by the create-commit step of
process_frame (handtracker.py, lines 305-338). -/
structure CreateState where
  quad_points : List IPoint
  quad_active : Bool
  pinched_start_time : Option ℚ
  spawned_app : Option String
  voice_enabled : Bool
deriving DecidableEq

/-- The create-commit step of process_frame (handtracker.py, lines
305-338): pts is the list of pinch points accumulated this frame (two per
pinched hand) and now is time.time() for this frame (the source calls
time.time() twice in the branch; both calls happen within the same frame
and are modelled by the same instant).  A frame with no detected hands
reaches the same `pinched_start_time = None` reset (line 338) as a frame
with fewer than 4 points, so both are covered by the non-4 branch. -/
def create_commit_step (st : CreateState) (pts : List IPoint) (now : ℚ) :
    CreateState :=
  if pts.length = 4 then
    if st.quad_points.length ≠ 4 then
      let t0 := st.pinched_start_time.getD now
      let live_rect := get_rectangle_from_points pts
      if st.spawned_app.isSome then
        { st with quad_points := live_rect, quad_active := true,
                  pinched_start_time := some t0 }
      else if now - t0 ≥ 2 then
        { st with quad_points := live_rect, quad_active := true,
                  pinched_start_time := some t0,
                  spawned_app :=
                    if st.voice_enabled = false ∧ st.spawned_app = none then
                      some spotify_app
                    else st.spawned_app }
      else
        { st with pinched_start_time := some t0 }
    else
      { st with pinched_start_time := none }
  else
    { st with pinched_start_time := none }

/-- Width of an integer quad in the corner ordering of the data model. -/
def quad_width_px : List IPoint → ℤ
  | q0 :: q1 :: _ => q1.1 - q0.1
  | _ => 0

/-- Height of an integer quad in the corner ordering of the data model. -/
def quad_height_px : List IPoint → ℤ
  | q0 :: _ :: _ :: q3 :: _ => q3.2 - q0.2
  | _ => 0

end HandTracker

/-- C2: with exactly 4 pinch points accumulated and no existing region, a
pending spawn request commits on that very frame; without a pending
request, the region does not commit while the elapsed hold time is below
2.0 s and commits once it is at or past 2.0 s; and whenever the pinch point
count drops below 4 first, the accumulation timer resets to None. -/
theorem C2_create_commit_policy (st : HandTracker.CreateState)
    (pts : List IPoint) (now : ℚ) (hq : st.quad_points.length ≠ 4) :
    (pts.length = 4 → st.spawned_app.isSome = true →
      (HandTracker.create_commit_step st pts now).quad_points =
          HandTracker.get_rectangle_from_points pts ∧
      (HandTracker.create_commit_step st pts now).quad_active = true)
    ∧ (pts.length = 4 → st.spawned_app = none →
        ∀ t0, st.pinched_start_time = some t0 →
          ((now - t0 < 2 →
            (HandTracker.create_commit_step st pts now).quad_points =
              st.quad_points) ∧
           (now - t0 ≥ 2 →
            (HandTracker.create_commit_step st pts now).quad_points =
              HandTracker.get_rectangle_from_points pts)))
    ∧ (pts.length < 4 →
        (HandTracker.create_commit_step st pts now).pinched_start_time = none) := by
  refine ⟨?_, ?_, ?_⟩
  · intro hp hs
    simp [HandTracker.create_commit_step, hp, hq, hs]
  · intro hp hs t0 ht
    constructor
    · intro hlt
      have hge : ¬ (now - t0 ≥ 2) := by linarith
      simp [HandTracker.create_commit_step, hp, hq, hs, ht, hge]
    · intro hge
      simp [HandTracker.create_commit_step, hp, hq, hs, ht, hge]
  · intro hlt
    have hp : pts.length ≠ 4 := by omega
    simp [HandTracker.create_commit_step, hp]

/-- Witness for C2: with no quad and a pending spawn request, 4 pinch
points commit their bounding rectangle on the same frame. -/
theorem C2_create_commit_policy_witness :
    ((([] : List IPoint).length ≠ 4) ∧
      (([(0, 0), (4, 0), (4, 4), (0, 4)] : List IPoint).length = 4) ∧
      (Option.isSome (some HandTracker.spotify_app) = true)) ∧
    (HandTracker.create_commit_step
        ⟨[], false, none, some HandTracker.spotify_app, true⟩
        [(0, 0), (4, 0), (4, 4), (0, 4)] 0).quad_points =
      HandTracker.get_rectangle_from_points [(0, 0), (4, 0), (4, 4), (0, 4)] :=
  ⟨⟨by decide, by decide, by decide⟩,
    ((C2_create_commit_policy ⟨[], false, none, some HandTracker.spotify_app, true⟩
      [(0, 0), (4, 0), (4, 4), (0, 4)] 0 (by decide)).1 (by decide) (by decide)).1⟩

/-- C9 counterexample: four coincident pinch points at (5,5) with a spawn
request pending commit a zero-area quad — the create-commit step has no
minimum-size rejection, contrary to the claim that no zero-area or
below-minimum rectangle is ever committed. -/
theorem C9_zero_area_committed_counterexample :
    (HandTracker.create_commit_step
        ⟨[], false, none, some HandTracker.spotify_app, true⟩
        [(5, 5), (5, 5), (5, 5), (5, 5)] 0).quad_points =
      [((5 : ℤ), 5), (5, 5), (5, 5), (5, 5)] ∧
    (HandTracker.create_commit_step
        ⟨[], false, none, some HandTracker.spotify_app, true⟩
        [(5, 5), (5, 5), (5, 5), (5, 5)] 0).quad_active = true ∧
    HandTracker.quad_width_px (HandTracker.create_commit_step
        ⟨[], false, none, some HandTracker.spotify_app, true⟩
        [(5, 5), (5, 5), (5, 5), (5, 5)] 0).quad_points = 0 ∧
    HandTracker.quad_height_px (HandTracker.create_commit_step
        ⟨[], false, none, some HandTracker.spotify_app, true⟩
        [(5, 5), (5, 5), (5, 5), (5, 5)] 0).quad_points = 0 := by
  refine ⟨?_, ?_, ?_, ?_⟩ <;> decide

/-- C9 (amended): the create-commit step performs no minimum-size check —
whenever 4 points are accumulated with no existing region and a spawn
request pending, their bounding rectangle is committed as the active quad
whatever its dimensions, including the degenerate zero-area case. -/
theorem C9_no_min_size_check (st : HandTracker.CreateState)
    (pts : List IPoint) (now : ℚ) (hq : st.quad_points.length ≠ 4)
    (hp : pts.length = 4) (hs : st.spawned_app.isSome = true) :
    (HandTracker.create_commit_step st pts now).quad_points =
        HandTracker.get_rectangle_from_points pts ∧
    (HandTracker.create_commit_step st pts now).quad_active = true := by
  simp [HandTracker.create_commit_step, hp, hq, hs]

/-- Witness for C9 (amended) at the degenerate input of the counterexample. -/
theorem C9_no_min_size_check_witness :
    ((([] : List IPoint).length ≠ 4) ∧
      (([(5, 5), (5, 5), (5, 5), (5, 5)] : List IPoint).length = 4) ∧
      (Option.isSome (some HandTracker.spotify_app) = true)) ∧
    (HandTracker.create_commit_step
        ⟨[], false, none, some HandTracker.spotify_app, true⟩
        [(5, 5), (5, 5), (5, 5), (5, 5)] 0).quad_active = true :=
  ⟨⟨by decide, by decide, by decide⟩,
    (C9_no_min_size_check ⟨[], false, none, some HandTracker.spotify_app, true⟩
      [(5, 5), (5, 5), (5, 5), (5, 5)] 0 (by decide) (by decide) (by decide)).2⟩

namespace HandTracker

/-- update_quad_position (handtracker.py, lines 89-104), identical to the
quad_manager.py copy but over integer pixel coordinates. -/
def update_quad_position (quad_points : List IPoint) (new_corner_pos : IPoint)
    (corner_index : Nat) : List IPoint :=
  if quad_points.length ≠ 4 then quad_points
  else
    match quad_points[corner_index]? with
    | none => quad_points
    | some old_corner =>
      let dx := new_corner_pos.1 - old_corner.1
      let dy := new_corner_pos.2 - old_corner.2
      quad_points.map (fun corner => (corner.1 + dx, corner.2 + dy))

/-- The dragging state of HandTracker (handtracker.py, lines 39-41)
together with the quad it operates on. -/
structure DragState where
  quad_points : List IPoint
  dragging_window : Bool
  drag_corner_index : Option Nat
  drag_offset : IPoint
deriving DecidableEq

/-- One iteration test of the corner scan (handtracker.py, line 273): the
pinch counts as hitting corner i when the thumb tip or the index tip is
within the 50 px grab distance of quad_points[i]. -/
def corner_hit (quad : List IPoint) (thumb index_tip : IPoint) (i : Nat) : Bool :=
  match quad[i]? with
  | some c => is_near_corner thumb c 50 || is_near_corner index_tip c 50
  | none => false

/-- The corner scan `for i in [0, 1]` of process_frame (handtracker.py,
lines 272-280), unrolled: only the two top corners are ever tested, and the
first hit wins. -/
def scan_top_corners (quad : List IPoint) (thumb index_tip : IPoint) : Option Nat :=
  if corner_hit quad thumb index_tip 0 then some 0
  else if corner_hit quad thumb index_tip 1 then some 1
  else none

/-- The per-hand drag block of process_frame (handtracker.py, lines
267-291): with a 4-corner quad present, a pinched hand either starts a drag
session bound to a scanned corner (recording the offset between the pinch
midpoint, computed with Python // floor division, and that corner), or
continues an active drag by translating the quad; an unpinched hand ends
any active drag. -/
def drag_block (st : DragState) (thumb index_tip : IPoint) : DragState :=
  if st.quad_points.length = 4 then
    if is_pinched thumb index_tip 100 then
      if st.dragging_window = false then
        match scan_top_corners st.quad_points thumb index_tip with
        | some i =>
          let pinch_center : IPoint :=
            ((thumb.1 + index_tip.1).fdiv 2, (thumb.2 + index_tip.2).fdiv 2)
          match st.quad_points[i]? with
          | some corner =>
            { st with dragging_window := true, drag_corner_index := some i,
                      drag_offset := (pinch_center.1 - corner.1,
                                      pinch_center.2 - corner.2) }
          | none => st
        | none => st
      else
        let pinch_center : IPoint :=
          ((thumb.1 + index_tip.1).fdiv 2, (thumb.2 + index_tip.2).fdiv 2)
        match st.drag_corner_index with
        | some ci =>
          { st with quad_points := (update_quad_position st.quad_points
              (pinch_center.1 - st.drag_offset.1,
               pinch_center.2 - st.drag_offset.2) ci) }
        | none => st
    else
      if st.dragging_window then
        { st with dragging_window := false, drag_corner_index := none,
                  drag_offset := (0, 0) }
      else st
  else st

end HandTracker

/-- C5 counterexample: a hand pinching exactly on the bottom-right corner
(corner index 2) of an existing non-dragging 100x100 region — within grab
distance of that corner — does not start a drag session, because the scan
only tests the two top corners. -/
theorem C5_drag_any_corner_counterexample :
    ((([((0 : ℤ), 0), (100, 0), (100, 100), (0, 100)] : List IPoint)[2]? =
        some ((100 : ℤ), 100)) ∧
      HandTracker.is_pinched (100, 100) (100, 100) 100 = true ∧
      HandTracker.is_near_corner (100, 100) ((100 : ℤ), 100) 50 = true) ∧
    (HandTracker.drag_block
        ⟨[(0, 0), (100, 0), (100, 100), (0, 100)], false, none, (0, 0)⟩
        (100, 100) (100, 100)).dragging_window = false := by
  refine ⟨⟨by decide, by decide, by decide⟩, by decide⟩

/-- C5 (amended): for an existing 4-corner quad with no drag in progress
and a pinched hand, a drag session begins exactly when the pinch is within
grab distance of one of the two top corners (index 0, top-left, or index 1,
top-right) — the bottom corners can never initiate a drag. -/
theorem C5_drag_top_corners_only (st : HandTracker.DragState)
    (thumb index_tip : IPoint) (h4 : st.quad_points.length = 4)
    (hnd : st.dragging_window = false)
    (hp : HandTracker.is_pinched thumb index_tip 100 = true) :
    (HandTracker.drag_block st thumb index_tip).dragging_window = true ↔
      (HandTracker.corner_hit st.quad_points thumb index_tip 0 = true ∨
       HandTracker.corner_hit st.quad_points thumb index_tip 1 = true) := by
  rcases st with ⟨quad, dw, dci, doff⟩
  simp only at h4 hnd hp ⊢
  subst hnd
  rcases quad with _ | ⟨a, _ | ⟨b, _ | ⟨c, _ | ⟨d, _ | ⟨e, t⟩⟩⟩⟩⟩ <;> simp at h4
  by_cases h0 : HandTracker.corner_hit [a, b, c, d] thumb index_tip 0 = true <;>
    by_cases h1 : HandTracker.corner_hit [a, b, c, d] thumb index_tip 1 = true <;>
      simp [HandTracker.drag_block, HandTracker.scan_top_corners, hp, h0, h1]

/-- Witness for C5 (amended): a pinch on the top-left corner of a 100x100
region starts a drag session. -/
theorem C5_drag_top_corners_only_witness :
    ((([((0 : ℤ), 0), (100, 0), (100, 100), (0, 100)] : List IPoint).length = 4) ∧
      HandTracker.is_pinched (0, 0) (0, 0) 100 = true ∧
      HandTracker.corner_hit [((0 : ℤ), 0), (100, 0), (100, 100), (0, 100)]
        (0, 0) (0, 0) 0 = true) ∧
    (HandTracker.drag_block
        ⟨[(0, 0), (100, 0), (100, 100), (0, 100)], false, none, (0, 0)⟩
        (0, 0) (0, 0)).dragging_window = true :=
  ⟨⟨by decide, by decide, by decide⟩,
    (C5_drag_top_corners_only
      ⟨[(0, 0), (100, 0), (100, 100), (0, 100)], false, none, (0, 0)⟩
      (0, 0) (0, 0) (by decide) (by decide) (by decide)).mpr (Or.inl (by decide))⟩

namespace VolumeController

/-- The _enqueue_volume submission (volume_control.py, lines 52-61):
queue.Queue() is unbounded, so put_nowait never raises Full and the value
is simply appended at the tail of the FIFO queue. -/
def enqueue_volume (q : List ℤ) (volume : ℤ) : List ℤ := q ++ [volume]

/-- The inner drain loop of _volume_worker (volume_control.py, lines
76-81): latest starts at the value first taken from the queue and is
overwritten by each further get_nowait() until the queue raises Empty. -/
def drain_latest : ℤ → List ℤ → ℤ
  | vol, [] => vol
  | _, v :: rest => drain_latest v rest

/-- Observable outcome of one pass of the _volume_worker loop body: the
set_volume calls issued, the queue contents left behind, whether any
exception escaped the body, the log entries produced, and whether the pass
stopped the worker loop. -/
structure DrainResult where
  calls : List ℤ
  queue_after : List ℤ
  log : List String
  exception_escaped : Bool
  worker_stopped : Bool
deriving DecidableEq

/-- One pass of the _volume_worker loop body (volume_control.py, lines
69-92).  An empty queue corresponds to the 0.1 s get timeout raising Empty
and the loop continuing.  Otherwise the first value is taken, the drain
loop collapses the rest to the latest value, and set_volume(latest) is
called exactly once; raises tells whether that external call raises, and
the bare `except Exception: pass` handler swallows the exception without
producing any log output, so the observable outcome does not depend on it. -/
def volume_worker_pass (q : List ℤ) (raises : ℤ → Bool) : DrainResult :=
  match q with
  | [] => ⟨[], [], [], false, false⟩
  | vol :: rest =>
    let latest := drain_latest vol rest
    if raises latest then ⟨[latest], [], [], false, false⟩
    else ⟨[latest], [], [], false, false⟩

/-- Submitting values one by one appends them to the queue in order. -/
theorem enqueue_volume_foldl (vs : List ℤ) :
    ∀ acc : List ℤ, vs.foldl enqueue_volume acc = acc ++ vs := by
  induction vs with
  | nil => intro acc; simp
  | cons v rest ih => intro acc; simp [enqueue_volume, ih]

/-- The drain loop always ends on the last element of the queue. -/
theorem drain_latest_append (l : List ℤ) :
    ∀ u v : ℤ, drain_latest u (l ++ [v]) = v := by
  induction l with
  | nil => intro u v; simp [drain_latest]
  | cons w rest ih => intro u v; simpa [drain_latest] using ih w v

end VolumeController

/-- C7: submissions before a drain append to the queue in order; one drain
pass over a queue whose last submitted value is last_value issues exactly
one external set-volume call, with last_value, and leaves the queue empty;
in particular submitting 10, 20, 35 in succession yields exactly one call
with 35. -/
theorem C7_dispatcher_coalescing (vs submitted_before : List ℤ)
    (last_value : ℤ) (raises : ℤ → Bool) :
    vs.foldl VolumeController.enqueue_volume [] = vs ∧
    (VolumeController.volume_worker_pass (submitted_before ++ [last_value])
        raises).calls = [last_value] ∧
    (VolumeController.volume_worker_pass (submitted_before ++ [last_value])
        raises).queue_after = [] ∧
    (VolumeController.volume_worker_pass
        (([10, 20, 35] : List ℤ).foldl VolumeController.enqueue_volume [])
        raises).calls = [35] := by
  have hfold := VolumeController.enqueue_volume_foldl vs []
  have hcalls : ∀ (init : List ℤ) (v : ℤ),
      (VolumeController.volume_worker_pass (init ++ [v]) raises).calls = [v] ∧
      (VolumeController.volume_worker_pass (init ++ [v]) raises).queue_after = [] := by
    intro init v
    cases init with
    | nil =>
      by_cases hr : raises (VolumeController.drain_latest v []) = true <;>
        simp [VolumeController.volume_worker_pass, VolumeController.drain_latest, hr]
    | cons w rest =>
      by_cases hr : raises (VolumeController.drain_latest w (rest ++ [v])) = true <;>
        simp [VolumeController.volume_worker_pass, VolumeController.drain_latest,
          VolumeController.drain_latest_append, hr]
  refine ⟨by simpa using hfold, (hcalls submitted_before last_value).1,
    (hcalls submitted_before last_value).2, ?_⟩
  have h3 : (([10, 20, 35] : List ℤ).foldl VolumeController.enqueue_volume []) =
      ([10, 20] : List ℤ) ++ [35] := by
    simpa using VolumeController.enqueue_volume_foldl [10, 20, 35] []
  rw [h3]
  exact (hcalls [10, 20] 35).1

/-- C8 counterexample: when the external set-volume call raises on value
35, the worker pass produces no log entry at all — the bare
`except Exception: pass` handler swallows the exception silently, so the
claim that the exception is logged fails. -/
theorem C8_not_logged_counterexample :
    (VolumeController.volume_worker_pass [35] (fun _ => true)).calls = [35] ∧
    (VolumeController.volume_worker_pass [35] (fun _ => true)).log = [] :=
  ⟨rfl, rfl⟩

/-- C8 (amended): every exception raised by the external set-volume call
inside the worker is caught and silently suppressed — nothing is logged —
it never propagates out of the worker body, and the worker loop continues
with subsequent values. -/
theorem C8_exceptions_swallowed (q : List ℤ) (raises : ℤ → Bool) :
    (VolumeController.volume_worker_pass q raises).exception_escaped = false ∧
    (VolumeController.volume_worker_pass q raises).log = [] ∧
    (VolumeController.volume_worker_pass q raises).worker_stopped = false := by
  cases q with
  | nil => exact ⟨rfl, rfl, rfl⟩
  | cons v rest =>
    by_cases hr : raises (VolumeController.drain_latest v rest) = true <;>
      simp [VolumeController.volume_worker_pass, hr]

namespace VolumeController

/-- np.clip(x, lo, hi) on scalars: x limited to the interval [lo, hi]. -/
def np_clip (x lo hi : ℚ) : ℚ := if x < lo then lo else if x > hi then hi else x

/-- The volume computation of calculate_volume_from_pinch
(volume_control.py, lines 36-43): with min_dist 20 and max_dist 200, the
pinch distance is mapped affinely to [0, 100], clipped, and converted by
int(); the clipped value is nonnegative, so Python truncation equals the
floor.  The Euclidean pinch distance (math.hypot of the fingertip points)
enters as the parameter pinch_dist. -/
def computed_volume (pinch_dist : ℚ) : ℤ :=
  ⌊np_clip ((pinch_dist - 20) / (200 - 20) * 100) 0 100⌋

/-- The VolumeController fields read and written by
calculate_volume_from_pinch (volume_control.py, lines 18-21). -/
structure VolumeState where
  volume_gesture_enabled : Bool
  last_volume_set : ℤ
deriving DecidableEq

/-- calculate_volume_from_pinch (volume_control.py, lines 31-50): returns
(the function's return value, the value submitted to the dispatcher queue
if any, the new last_volume_set).  When the gesture is disabled it returns
None and touches nothing; otherwise it computes the volume and submits it
iff it differs from last_volume_set by strictly more than 2. -/
def calculate_volume_from_pinch (st : VolumeState) (pinch_dist : ℚ) :
    Option ℤ × Option ℤ × ℤ :=
  if st.volume_gesture_enabled = false then (none, none, st.last_volume_set)
  else
    let volume := computed_volume pinch_dist
    if 2 < |volume - st.last_volume_set| then
      (some volume, some volume, volume)
    else
      (some volume, none, st.last_volume_set)

end VolumeController

/-- C10: with the volume gesture disabled, calculate_volume_from_pinch
returns None and submits nothing; with it enabled, a value is submitted to
the dispatcher iff the newly computed volume differs from last_volume_set
by strictly more than 2, in which case last_volume_set becomes the new
volume, and otherwise nothing is submitted and last_volume_set is
unchanged. -/
theorem C10_volume_hysteresis (st : VolumeController.VolumeState)
    (pinch_dist : ℚ) :
    (st.volume_gesture_enabled = false →
      VolumeController.calculate_volume_from_pinch st pinch_dist =
        (none, none, st.last_volume_set)) ∧
    (st.volume_gesture_enabled = true →
      ((VolumeController.calculate_volume_from_pinch st pinch_dist).2.1.isSome = true ↔
        2 < |VolumeController.computed_volume pinch_dist - st.last_volume_set|) ∧
      (2 < |VolumeController.computed_volume pinch_dist - st.last_volume_set| →
        VolumeController.calculate_volume_from_pinch st pinch_dist =
          (some (VolumeController.computed_volume pinch_dist),
           some (VolumeController.computed_volume pinch_dist),
           VolumeController.computed_volume pinch_dist)) ∧
      (|VolumeController.computed_volume pinch_dist - st.last_volume_set| ≤ 2 →
        VolumeController.calculate_volume_from_pinch st pinch_dist =
          (some (VolumeController.computed_volume pinch_dist), none,
           st.last_volume_set))) := by
  rcases st with ⟨en, last⟩
  cases en with
  | false =>
    refine ⟨fun _ => ?_, fun h => by simp at h⟩
    simp [VolumeController.calculate_volume_from_pinch]
  | true =>
    refine ⟨fun h => by simp at h, fun _ => ?_⟩
    by_cases hd : 2 < |VolumeController.computed_volume pinch_dist - last|
    · refine ⟨?_, fun _ => ?_, fun hle => ?_⟩
      · simp [VolumeController.calculate_volume_from_pinch, hd]
      · simp [VolumeController.calculate_volume_from_pinch, hd]
      · exact absurd hd (not_lt.mpr hle)
    · refine ⟨?_, fun hgt => absurd hgt hd, fun _ => ?_⟩
      · simp [VolumeController.calculate_volume_from_pinch, hd]
      · simp [VolumeController.calculate_volume_from_pinch, hd]

/-- Witness for C10: with the gesture enabled, last_volume_set 0 and a
pinch distance of 200 px the computed volume is 100, which differs from 0
by more than 2 and is therefore submitted and recorded. -/
theorem C10_volume_hysteresis_witness :
    ((⟨true, 0⟩ : VolumeController.VolumeState).volume_gesture_enabled = true ∧
      2 < |VolumeController.computed_volume 200 - 0|) ∧
    VolumeController.calculate_volume_from_pinch ⟨true, 0⟩ 200 =
      (some 100, some 100, 100) := by
  have h100 : VolumeController.computed_volume 200 = 100 := by
    have hx : ((200 : ℚ) - 20) / (200 - 20) * 100 = 100 := by norm_num
    rw [VolumeController.computed_volume, hx]
    rw [show VolumeController.np_clip 100 0 100 = 100 by
      norm_num [VolumeController.np_clip]]
    norm_num [Int.floor_eq_iff]
  have hgt : 2 < |VolumeController.computed_volume 200 - 0| := by
    rw [h100]; norm_num
  have h := ((C10_volume_hysteresis ⟨true, 0⟩ 200).2 rfl).2.1 hgt
  rw [h100] at h
  exact ⟨⟨rfl, hgt⟩, h⟩
